import Mathlib

set_option linter.unusedVariables false

/-!
Verification of the PaperBanana diagram pipeline (scripts under
skills/paper-banana/scripts): a shallow embedding of the refinement-loop
orchestrator (orchestrate.py), the image renderer retry loop
(generate_image.py), the critic adapter (critic.py) and the retriever
call signature (retriever.py), with theorems about the acceptance
policy, iteration bounds, retry/backoff behaviour and exit codes.

External services (the generative model, the file system) are modelled
as explicit environments: a function giving, for each renderer call, the
outcome of that call, and for each critic call, the parsed verdict.
-/

namespace PaperBanana

/-! ## Constants from the source -/

/-- orchestrate.py: `MAX_REFINEMENTS = 3`. -/
def MAX_REFINEMENTS : Nat := 3

/-- generate_image.py: `MAX_RETRIES = 3`. -/
def MAX_RETRIES : Nat := 3

/-- generate_image.py: `RETRY_BASE_DELAY = 2` (seconds). -/
def RETRY_BASE_DELAY : Nat := 2

/-! ## generate_image.py: prompt building and save path -/

/-- The quality prefix prepended by `build_prompt` in generate_image.py. -/
def quality_prefix : String :=
  "High-resolution academic illustration for a top-tier ML conference paper. Clean white or very light background. All text must be perfectly legible in clear sans-serif font. Professional publication quality. No watermarks, signatures, or decorative borders. No figure number or caption text within the image. "

/-- generate_image.py `build_prompt(description, aspect_ratio)`: returns
the quality prefix followed by the description.  The aspect-ratio
argument is accepted but not used in the prompt text, as in the source. -/
def build_prompt (description : String) (aspect : String) : String :=
  quality_prefix ++ description

/-- generate_image.py lines 133-135: the path the image is saved to —
`output_path`, with `".png"` appended when `output_path.lower()` does not
already end in `".png"` (the lowering and suffix test are modelled over
the character list). -/
def savePath (output_path : String) : String :=
  if ".png".data.isSuffixOf (output_path.data.map Char.toLower) then output_path
  else output_path ++ ".png"

/-! ## retriever.py / orchestrate.py: the Phase-1 call binding -/

/-- The parameters declared by `run_retriever(methodology, mode)` in
retriever.py (line 111). -/
def run_retriever_params : List String := ["methodology", "mode"]

/-- The keyword arguments orchestrate.py line 98 passes to
`run_retriever` (besides one positional argument `methodology`):
`mode="diagram", references_dir=references_dir`. -/
def phase1_call_kwargs : List String := ["mode", "references_dir"]

/-- Python call binding for a function with only plain named parameters
and no `**kwargs`: the call binds only when every keyword argument names
a declared parameter; otherwise the call raises
`TypeError: ... got an unexpected keyword argument ...` before the
function body runs. -/
def acceptsKwargs (params kwargs : List String) : Bool :=
  kwargs.all (fun k => params.contains k)

/-- orchestrate.py lines 94-99, Phase 1: the `run_retriever` call is
attempted first; only if it binds is the retriever output produced and
saved (`save_intermediate(..., "retriever_output", ...)`). -/
def diagramPhase1 : Except String (List String) :=
  if acceptsKwargs run_retriever_params phase1_call_kwargs then
    .ok ["retriever_output"]
  else
    .error "TypeError: run_retriever() got an unexpected keyword argument references_dir"

/-! ## critic.py / orchestrate.py: data model of a critic verdict -/

/-- The four 1-10 dimension scores of the critic JSON response
(critic.py output format, lines 100-106).  Integers, as parsed from
JSON. -/
structure Scores where
  faithfulness : Int
  readability : Int
  conciseness : Int
  aesthetics : Int
deriving DecidableEq, Repr

/-- The parsed critic JSON response as orchestrate.py reads it
(`critic_output`).  Every field the orchestrator touches is kept;
`Option` marks keys that may be absent or JSON `null` (the orchestrator
reads them with `.get`). -/
structure CriticOutput where
  scores : Option Scores
  primary_pass : Option Bool
  revised_description : Option String
deriving DecidableEq, Repr

/-- Python truthiness of `result.get("revised_description")` at
orchestrate.py lines 171-172: `None` and the empty string are falsy. -/
def pyTruthy : Option String → Bool
  | none => false
  | some s => !s.isEmpty

/-- orchestrate.py line 156: the acceptance check
`critic_output.get("primary_pass", False)` — the Boolean is read from
the critic response, defaulting to `False` when the key is absent. -/
def acceptedCheck (v : CriticOutput) : Bool :=
  v.primary_pass.getD false

/-! ## orchestrate.py: the refinement loop (lines 121-189) -/

/-- The external collaborators of the loop: for each (iteration, full
prompt), the outcome of the `generate_image` call (`.error e` models the
`RuntimeError` it raises after exhausting retries); for each (iteration,
current styled description), the critic verdict `run_critic` returns. -/
structure Env where
  render : Nat → String → Except String Unit
  critic : Nat → String → CriticOutput

/-- The `results` dict of `run_diagram_pipeline` (the keys the loop
writes): `iterations` (the appended critic verdicts), `accepted`,
`final_scores` (the verdict's `scores` value, `none` inside modelling
the `{}` default of `.get("scores", {})`), `max_refinements_reached`,
and `error`. -/
structure RunResults where
  iterations : List CriticOutput := []
  accepted : Option Bool := none
  final_scores : Option (Option Scores) := none
  max_refinements_reached : Bool := false
  error : Option String := none
deriving DecidableEq, Repr

/-- Observable calls of one run: the renderer invocations (iteration,
full prompt), the image files written on renderer success (iteration,
path), and the critic invocations (iteration, styled description passed). -/
structure Trace where
  renders : List (Nat × String) := []
  imageWrites : List (Nat × String) := []
  criticCalls : List (Nat × String) := []
deriving DecidableEq, Repr

/-- orchestrate.py line 128: the per-iteration output name
`iter_output = output_path if iteration == 1 else f"..."` — computed in
the source but never used afterwards (the `generate_image` call at lines
131-135 passes `output_path`). -/
def iter_output (output_path : String) (iteration : Nat) : String :=
  if iteration == 1 then output_path
  else output_path ++ ".iter" ++ toString iteration ++ ".png"

/-- The body of the `for iteration in range(1, MAX_REFINEMENTS + 1)` loop
of `run_diagram_pipeline` (orchestrate.py lines 121-182), with
`remaining` the number of loop iterations left.  Each iteration: build
the full prompt, call the renderer (always at `output_path`); on
`RuntimeError` record the error and break; otherwise call the critic,
append its verdict, and either accept (`primary_pass`), stop at the
refinement bound, adopt the revised description, or accept the current
version when no usable revision is given. -/
def refineLoop (env : Env) (output_path aspect : String) :
    Nat → Nat → String → RunResults → Trace → RunResults × Trace
  | 0, _, _, results, trace => (results, trace)
  | remaining + 1, iteration, current_description, results, trace =>
    let full_prompt := build_prompt current_description aspect
    let trace := { trace with renders := trace.renders ++ [(iteration, full_prompt)] }
    match env.render iteration full_prompt with
    | .error e => ({ results with error := some e }, trace)
    | .ok _ =>
      let trace := { trace with
        imageWrites := trace.imageWrites ++ [(iteration, savePath output_path)] }
      let critic_output := env.critic iteration current_description
      let trace := { trace with
        criticCalls := trace.criticCalls ++ [(iteration, current_description)] }
      let results := { results with iterations := results.iterations ++ [critic_output] }
      if acceptedCheck critic_output then
        ({ results with
            accepted := some true
            final_scores := some critic_output.scores }, trace)
      else if iteration ≥ MAX_REFINEMENTS then
        ({ results with
            accepted := some true
            final_scores := some critic_output.scores
            max_refinements_reached := true }, trace)
      else if pyTruthy critic_output.revised_description then
        refineLoop env output_path aspect remaining (iteration + 1)
          (critic_output.revised_description.getD "") results trace
      else
        ({ results with
            accepted := some true
            final_scores := some critic_output.scores }, trace)

/-- The Phase-4/5 refinement loop of `run_diagram_pipeline`, entered with
iteration 1 and the stylist's styled description as the current
Specification. -/
def run_diagram_refinement (env : Env) (stylist_description output_path aspect : String) :
    RunResults × Trace :=
  refineLoop env output_path aspect MAX_REFINEMENTS 1 stylist_description {} {}

/-! ## generate_image.py: the retry loop (lines 112-153) -/

/-- The outcome of one `client.models.generate_content` attempt inside
`generate_image`: the call (or response processing) raised an exception,
or the response carried an inline image payload, or it carried no image
payload. -/
inductive AttemptOutcome where
  | raised (msg : String)
  | imagePayload (data : String)
  | noImage
deriving DecidableEq, Repr

/-- The exception message an attempt produces, if any.  A response with
no image payload raises `RuntimeError("No image data in API response")`
inside the `try` block, so it is caught like any other exception. -/
def attemptError : AttemptOutcome → Option String
  | .raised m => some m
  | .noImage => some "No image data in API response"
  | .imagePayload _ => none

/-- Observable effects of one `generate_image` call: how many times the
external client was invoked, and the sleep delays (seconds) between
attempts. -/
structure GenTrace where
  calls : Nat := 0
  delays : List Nat := []
deriving DecidableEq, Repr

/-- The `for attempt in range(MAX_RETRIES)` loop of `generate_image`
(generate_image.py lines 112-153), with `remaining` the number of loop
iterations left and `f` giving each attempt's outcome.  On success the
image is saved and the save path returned; on failure before the last
attempt the loop sleeps `RETRY_BASE_DELAY * (2 ** attempt)` seconds and
retries; on the last attempt it raises a `RuntimeError` whose message
names the attempt count and carries the last underlying error. -/
def genLoop (f : Nat → AttemptOutcome) (output_path : String) :
    Nat → Nat → Option String → GenTrace → Except String String × GenTrace
  | 0, _, lastErr, tr => (.error (lastErr.getD ""), tr)
  | remaining + 1, attempt, _, tr =>
    let tr := { tr with calls := tr.calls + 1 }
    match attemptError (f attempt) with
    | none => (.ok (savePath output_path), tr)
    | some e =>
      if attempt < MAX_RETRIES - 1 then
        genLoop f output_path remaining (attempt + 1) (some e)
          { tr with delays := tr.delays ++ [RETRY_BASE_DELAY * 2 ^ attempt] }
      else
        (.error ("Image generation failed after " ++ toString MAX_RETRIES ++
          " attempts. Last error: " ++ e), tr)

/-- `generate_image(prompt, output_path, ...)` as a function of the
attempt outcomes: runs the retry loop from attempt 0. -/
def generate_image (f : Nat → AttemptOutcome) (output_path : String) :
    Except String String × GenTrace :=
  genLoop f output_path MAX_RETRIES 0 none {}

/-! ## orchestrate.py `main` (lines 311-346): diagram-mode exit code -/

/-- How the methodology is supplied on the CLI: inline text
(`--methodology`), a file (`--methodology-file`), or neither. -/
inductive MethodologySource where
  | inline (text : String)
  | fromFile (path : String)
  | absent
deriving DecidableEq, Repr

/-- The diagram branch of `main` (orchestrate.py lines 323-337) at the
process level.  `sys.exit(1)` when no methodology was given or the
methodology file does not exist.  Otherwise `run_diagram_pipeline` is
called, and its first executed statement is the Phase-1 `run_retriever`
call (line 98), whose binding `diagramPhase1` models: when that call
raises `TypeError`, the exception propagates uncaught out of `main` and
the Python process exits with code 1.  Only if the call bound would the
rest of the pipeline run; `rest` abstracts the exit code of that
unreached remainder (the stages own `sys.exit(1)` preconditions such as
a missing GOOGLE_API_KEY or reference index, uncaught parse errors, and
the refinement loop followed by the normal return, exit 0) rather than
stubbing it. -/
def mainDiagramExitCode (src : MethodologySource) (fileExists : String → Bool)
    (rest : Unit → Nat) : Nat :=
  match src with
  | .absent => 1
  | .fromFile p =>
    if fileExists p then
      match diagramPhase1 with
      | .error _ => 1
      | .ok _ => rest ()
    else 1
  | .inline _ =>
    match diagramPhase1 with
    | .error _ => 1
    | .ok _ => rest ()

/-! ## Concrete environments used as witnesses and counterexamples -/

/-- A verdict failing the primary check with a revision attached. -/
def failingVerdict (rev : Option String) : CriticOutput :=
  { scores := some ⟨5, 6, 5, 5⟩
    primary_pass := some false
    revised_description := rev }

/-- A verdict whose scores meet both primary thresholds while its
`primary_pass` field says `false`, with a revision attached. -/
def highScoresFailField : CriticOutput :=
  { scores := some ⟨10, 10, 10, 10⟩
    primary_pass := some false
    revised_description := some "revised spec" }

/-- Environment: every render succeeds, every critic verdict is
`highScoresFailField`. -/
def envHighScoresFailField : Env :=
  { render := fun _ _ => .ok ()
    critic := fun _ _ => highScoresFailField }

/-- Environment like `envHighScoresFailField` but with low scores: same
`primary_pass` and `revised_description` fields, different `scores`. -/
def envHighScoresFailFieldLow : Env :=
  { render := fun _ _ => .ok ()
    critic := fun _ _ =>
      { scores := some ⟨1, 1, 1, 1⟩
        primary_pass := some false
        revised_description := some "revised spec" } }

/-- Environment: every render succeeds, every critic verdict fails the
primary check and supplies a revision. -/
def envAllFailRevise : Env :=
  { render := fun _ _ => .ok ()
    critic := fun i _ => failingVerdict (some ("revision " ++ toString i)) }

/-- Environment: every render succeeds; the critic fails the primary
check and supplies no revision (`revised_description` null). -/
def envFailNoRevision : Env :=
  { render := fun _ _ => .ok ()
    critic := fun _ _ => failingVerdict none }

/-- Environment: every render succeeds; the critic passes the primary
check while also supplying a (contract-violating) non-null revision. -/
def envPassWithRevision : Env :=
  { render := fun _ _ => .ok ()
    critic := fun _ _ =>
      { scores := some ⟨9, 8, 7, 7⟩
        primary_pass := some true
        revised_description := some "spurious revision" } }

/-! ## Helper lemmas about the refinement loop -/

/-- Structural property of the refinement loop trace: the renderer is
invoked once per loop iteration, for consecutively numbered iterations,
at most `remaining` more times; the critic is invoked at most once per
renderer invocation; every image write goes to `savePath output_path`. -/
theorem refineLoop_trace_spec (env : Env) (p a : String) :
    ∀ remaining iteration d res tr, ∃ k, k ≤ remaining ∧
      ((refineLoop env p a remaining iteration d res tr).2.renders.map Prod.fst
        = tr.renders.map Prod.fst ++ List.range' iteration k) ∧
      (refineLoop env p a remaining iteration d res tr).2.criticCalls.length
        ≤ tr.criticCalls.length + k ∧
      (∀ e ∈ (refineLoop env p a remaining iteration d res tr).2.imageWrites,
        e ∈ tr.imageWrites ∨ e.2 = savePath p) := by
  intro remaining
  induction remaining with
  | zero =>
    intro it d res tr
    refine ⟨0, Nat.le_refl 0, by simp [refineLoop], by simp [refineLoop], ?_⟩
    intro e he
    exact Or.inl (by simpa [refineLoop] using he)
  | succ r ih =>
    intro it d res tr
    simp only [refineLoop]
    cases h : env.render it (build_prompt d a) with
    | error e =>
      refine ⟨1, by omega, by simp [List.range'_one], by simp, ?_⟩
      intro x hx
      exact Or.inl hx
    | ok u =>
      by_cases hacc : acceptedCheck (env.critic it d)
      · refine ⟨1, by omega, by simp [hacc, List.range'_one], by simp [hacc], ?_⟩
        simp only [hacc, if_true]
        intro x hx
        rcases List.mem_append.1 hx with h1 | h1
        · exact Or.inl h1
        · exact Or.inr (by rw [List.mem_singleton.1 h1])
      · by_cases hmax : it ≥ MAX_REFINEMENTS
        · refine ⟨1, by omega, by simp [hacc, hmax, List.range'_one],
            by simp [hacc, hmax], ?_⟩
          simp only [hacc, hmax, if_true, if_false, Bool.false_eq_true]
          intro x hx
          rcases List.mem_append.1 hx with h1 | h1
          · exact Or.inl h1
          · exact Or.inr (by rw [List.mem_singleton.1 h1])
        · by_cases hrev : pyTruthy (env.critic it d).revised_description
          · obtain ⟨k, hk, hr, hc, hw⟩ := ih (it + 1)
              ((env.critic it d).revised_description.getD "")
              { res with iterations := res.iterations ++ [env.critic it d] }
              { tr with
                  renders := tr.renders ++ [(it, build_prompt d a)]
                  imageWrites := tr.imageWrites ++ [(it, savePath p)]
                  criticCalls := tr.criticCalls ++ [(it, d)] }
            refine ⟨k + 1, by omega, ?_, ?_, ?_⟩
            · simp only [hacc, hmax, hrev, if_true, if_false, Bool.false_eq_true,
                ge_iff_le, not_le] at hr ⊢
              rw [hr]
              simp only [List.map_append, List.map_cons, List.map_nil,
                List.append_assoc, List.cons_append, List.nil_append]
              rfl
            · simp only [hacc, hmax, hrev, if_true, if_false, Bool.false_eq_true,
                ge_iff_le, not_le] at hc ⊢
              simp only [List.length_append, List.length_cons, List.length_nil] at hc
              omega
            · simp only [hacc, hmax, hrev, if_true, if_false, Bool.false_eq_true,
                ge_iff_le, not_le] at hw ⊢
              intro x hx
              rcases hw x hx with hw' | hw'
              · rcases List.mem_append.1 hw' with h1 | h1
                · exact Or.inl h1
                · exact Or.inr (by rw [List.mem_singleton.1 h1])
              · exact Or.inr hw'
          · refine ⟨1, by omega, by simp [hacc, hmax, hrev, List.range'_one],
              by simp [hacc, hmax, hrev], ?_⟩
            simp only [hacc, hmax, hrev, if_true, if_false, Bool.false_eq_true]
            intro x hx
            rcases List.mem_append.1 hx with h1 | h1
            · exact Or.inl h1
            · exact Or.inr (by rw [List.mem_singleton.1 h1])

/-- The refinement loop only appends to the render trace. -/
theorem refineLoop_renders_append (env : Env) (p a : String) :
    ∀ remaining it d res tr, ∃ new,
      (refineLoop env p a remaining it d res tr).2.renders = tr.renders ++ new := by
  intro remaining
  induction remaining with
  | zero => intro it d res tr; exact ⟨[], by simp [refineLoop]⟩
  | succ r ih =>
    intro it d res tr
    simp only [refineLoop]
    cases h : env.render it (build_prompt d a) with
    | error e => exact ⟨[(it, build_prompt d a)], rfl⟩
    | ok u =>
      by_cases hacc : acceptedCheck (env.critic it d)
      · exact ⟨[(it, build_prompt d a)], by simp [hacc]⟩
      · by_cases hmax : it ≥ MAX_REFINEMENTS
        · exact ⟨[(it, build_prompt d a)], by simp [hacc, hmax]⟩
        · by_cases hrev : pyTruthy (env.critic it d).revised_description
          · obtain ⟨new, hnew⟩ := ih (it + 1)
              ((env.critic it d).revised_description.getD "")
              { res with iterations := res.iterations ++ [env.critic it d] }
              { tr with
                  renders := tr.renders ++ [(it, build_prompt d a)]
                  imageWrites := tr.imageWrites ++ [(it, savePath p)]
                  criticCalls := tr.criticCalls ++ [(it, d)] }
            refine ⟨(it, build_prompt d a) :: new, ?_⟩
            simp only [hacc, hmax, hrev, if_true, if_false, Bool.false_eq_true,
              ge_iff_le, not_le] at hnew ⊢
            rw [hnew]
            simp
          · exact ⟨[(it, build_prompt d a)], by simp [hacc, hmax, hrev]⟩

/-- When at least one loop iteration is left, the very first thing the
loop does is invoke the renderer on the current description. -/
theorem refineLoop_first_render (env : Env) (p a : String)
    (r it : Nat) (d : String) (res : RunResults) (tr : Trace) :
    ∃ rest, (refineLoop env p a (r + 1) it d res tr).2.renders
      = tr.renders ++ (it, build_prompt d a) :: rest := by
  simp only [refineLoop]
  cases h : env.render it (build_prompt d a) with
  | error e => exact ⟨[], rfl⟩
  | ok u =>
    by_cases hacc : acceptedCheck (env.critic it d)
    · exact ⟨[], by simp [hacc]⟩
    · by_cases hmax : it ≥ MAX_REFINEMENTS
      · exact ⟨[], by simp [hacc, hmax]⟩
      · by_cases hrev : pyTruthy (env.critic it d).revised_description
        · obtain ⟨new, hnew⟩ := refineLoop_renders_append env p a r (it + 1)
            ((env.critic it d).revised_description.getD "")
            { res with iterations := res.iterations ++ [env.critic it d] }
            { tr with
                renders := tr.renders ++ [(it, build_prompt d a)]
                imageWrites := tr.imageWrites ++ [(it, savePath p)]
                criticCalls := tr.criticCalls ++ [(it, d)] }
          refine ⟨new, ?_⟩
          simp only [hacc, hmax, hrev, if_true, if_false, Bool.false_eq_true,
            ge_iff_le, not_le] at hnew ⊢
          rw [hnew]
          simp
        · exact ⟨[], by simp [hacc, hmax, hrev]⟩

/-- The control behaviour of the loop (trace, acceptance, exhaustion
flag, recorded error) depends on each critic verdict only through its
`primary_pass` and `revised_description` fields, never through its
scores. -/
theorem refineLoop_control_congr (env env' : Env)
    (hrnd : env'.render = env.render)
    (hcr : ∀ i s, (env'.critic i s).primary_pass = (env.critic i s).primary_pass ∧
      (env'.critic i s).revised_description = (env.critic i s).revised_description)
    (p a : String) :
    ∀ remaining it d res res' tr,
      res.accepted = res'.accepted →
      res.max_refinements_reached = res'.max_refinements_reached →
      res.error = res'.error →
      (refineLoop env p a remaining it d res tr).2
          = (refineLoop env' p a remaining it d res' tr).2 ∧
      (refineLoop env p a remaining it d res tr).1.accepted
          = (refineLoop env' p a remaining it d res' tr).1.accepted ∧
      (refineLoop env p a remaining it d res tr).1.max_refinements_reached
          = (refineLoop env' p a remaining it d res' tr).1.max_refinements_reached ∧
      (refineLoop env p a remaining it d res tr).1.error
          = (refineLoop env' p a remaining it d res' tr).1.error := by
  intro remaining
  induction remaining with
  | zero =>
    intro it d res res' tr h1 h2 h3
    exact ⟨rfl, h1, h2, h3⟩
  | succ r ih =>
    intro it d res res' tr h1 h2 h3
    simp only [refineLoop, hrnd]
    cases h : env.render it (build_prompt d a) with
    | error e => exact ⟨rfl, by simp [h1], by simp [h2], by simp⟩
    | ok u =>
      have hpp : acceptedCheck (env'.critic it d) = acceptedCheck (env.critic it d) := by
        simp [acceptedCheck, (hcr it d).1]
      have hrv : (env'.critic it d).revised_description
          = (env.critic it d).revised_description := (hcr it d).2
      by_cases hacc : acceptedCheck (env.critic it d)
      · simp [hacc, hpp, h2, h3]
      · by_cases hmax : it ≥ MAX_REFINEMENTS
        · simp [hacc, hpp, hmax, h3]
        · by_cases hrev : pyTruthy (env.critic it d).revised_description
          · simp only [hacc, hpp, hmax, hrv, hrev, if_true, if_false,
              Bool.false_eq_true, ge_iff_le, not_le]
            exact ih (it + 1) ((env.critic it d).revised_description.getD "")
              { res with iterations := res.iterations ++ [env.critic it d] }
              { res' with iterations := res'.iterations ++ [env'.critic it d] }
              { tr with
                  renders := tr.renders ++ [(it, build_prompt d a)]
                  imageWrites := tr.imageWrites ++ [(it, savePath p)]
                  criticCalls := tr.criticCalls ++ [(it, d)] }
              h1 h2 h3
          · simp [hacc, hpp, hmax, hrv, hrev, h2, h3]

/-! ## Claim theorems -/

/-- C1: orchestrate.py line 98 calls
`run_retriever(methodology, mode="diagram", references_dir=references_dir)`,
but the signature of `run_retriever` (retriever.py line 111) declares
only `(methodology, mode)`.  The keyword argument `references_dir` is
not a declared parameter, so the call does not bind: it raises a
`TypeError` and Phase 1 produces no stage output. -/
theorem phase1_retriever_call_fails :
    acceptsKwargs run_retriever_params phase1_call_kwargs = false ∧
    "references_dir" ∈ phase1_call_kwargs ∧
    "references_dir" ∉ run_retriever_params ∧
    diagramPhase1 =
      .error "TypeError: run_retriever() got an unexpected keyword argument references_dir" :=
  ⟨by decide, by decide, by decide, rfl⟩

/-- C2, counterexample: a critic verdict whose faithfulness and
readability scores are both 10 (≥ 7) but whose `primary_pass` field is
`false` is not accepted — the orchestrator runs all 3 iterations instead
of accepting at iteration 1, because the acceptance predicate is read
from the critic response field, not computed from the scores. -/
theorem primary_pass_not_recomputed_cex :
    (∃ s, highScoresFailField.scores = some s ∧ s.faithfulness ≥ 7 ∧ s.readability ≥ 7) ∧
    acceptedCheck highScoresFailField = false ∧
    (run_diagram_refinement envHighScoresFailField "A" "out.png" "16:9").2.renders.length = 3 ∧
    (run_diagram_refinement envHighScoresFailField "A" "out.png" "16:9").1.max_refinements_reached
      = true :=
  ⟨⟨_, rfl, by norm_num, by norm_num⟩, rfl, rfl, rfl⟩

/-- C2, amended: the orchestrator takes `primary_pass` directly from the
critic response (defaulting to `false`); it does not recompute it from
the scores.  Two environments whose critic verdicts agree on the
`primary_pass` and `revised_description` fields — with arbitrarily
different scores — produce the same trace, the same acceptance flag, the
same exhaustion flag and the same recorded error. -/
theorem acceptance_policy_reads_critic_field (env env' : Env)
    (hrnd : env'.render = env.render)
    (hcr : ∀ i s, (env'.critic i s).primary_pass = (env.critic i s).primary_pass ∧
      (env'.critic i s).revised_description = (env.critic i s).revised_description)
    (d p a : String) :
    (run_diagram_refinement env d p a).2 = (run_diagram_refinement env' d p a).2 ∧
    (run_diagram_refinement env d p a).1.accepted
      = (run_diagram_refinement env' d p a).1.accepted ∧
    (run_diagram_refinement env d p a).1.max_refinements_reached
      = (run_diagram_refinement env' d p a).1.max_refinements_reached ∧
    (run_diagram_refinement env d p a).1.error
      = (run_diagram_refinement env' d p a).1.error :=
  refineLoop_control_congr env env' hrnd hcr p a MAX_REFINEMENTS 1 d {} {} {} rfl rfl rfl

/-- C2, witness: the amended theorem applied to two concrete
environments that differ only in the reported scores. -/
theorem acceptance_policy_reads_critic_field_witness :
    (run_diagram_refinement envHighScoresFailField "A" "out.png" "16:9").1.accepted
      = (run_diagram_refinement envHighScoresFailFieldLow "A" "out.png" "16:9").1.accepted :=
  (acceptance_policy_reads_critic_field envHighScoresFailField envHighScoresFailFieldLow
    rfl (fun _ _ => ⟨rfl, rfl⟩) "A" "out.png" "16:9").2.1

/-- C3: for every environment, the refinement loop invokes the renderer
at most `MAX_REFINEMENTS = 3` times, invokes the critic at most 3 times,
and never invokes the renderer twice within the same iteration (the
iteration numbers of the render calls are pairwise distinct). -/
theorem render_evaluate_cycles_bounded (env : Env) (d p a : String) :
    (run_diagram_refinement env d p a).2.renders.length ≤ MAX_REFINEMENTS ∧
    (run_diagram_refinement env d p a).2.criticCalls.length ≤ MAX_REFINEMENTS ∧
    ((run_diagram_refinement env d p a).2.renders.map Prod.fst).Nodup := by
  obtain ⟨k, hk, hr, hc, -⟩ := refineLoop_trace_spec env p a MAX_REFINEMENTS 1 d {} {}
  have hlen : (run_diagram_refinement env d p a).2.renders.length = k := by
    have := congrArg List.length hr
    simpa [run_diagram_refinement] using this
  refine ⟨by omega, ?_, ?_⟩
  · have hc' := hc
    simp only [List.length_nil] at hc'
    have : (run_diagram_refinement env d p a).2.criticCalls.length
        = (refineLoop env p a MAX_REFINEMENTS 1 d {} {}).2.criticCalls.length := rfl
    omega
  · rw [show (run_diagram_refinement env d p a).2.renders
        = (refineLoop env p a MAX_REFINEMENTS 1 d {} {}).2.renders from rfl, hr]
    simpa using List.nodup_range' 1 k

/-- C4, counterexample: when every verdict fails the primary check and
supplies a revision, the run does end after iteration 3 with
`max_refinements_reached`, but the artifact is recorded as accepted
(`accepted = True`) — not flagged as unapproved as the claim states. -/
theorem exhausted_recorded_accepted_cex :
    acceptedCheck (envAllFailRevise.critic 3 "revision 2") = false ∧
    (run_diagram_refinement envAllFailRevise "A" "out.png" "16:9").1.iterations.length = 3 ∧
    (run_diagram_refinement envAllFailRevise "A" "out.png" "16:9").1.max_refinements_reached
      = true ∧
    (run_diagram_refinement envAllFailRevise "A" "out.png" "16:9").1.accepted = some true :=
  ⟨rfl, rfl, rfl, rfl⟩

/-- C4, amended: if `primary_pass` is false on iteration 3 (after
failing verdicts with usable revisions on iterations 1 and 2), the loop
terminates with no further render; the run records
`max_refinements_reached = True` as the exhaustion flag, the final
scores are those of the verdict just evaluated, and the result is
recorded as accepted (`accepted = True`), not as unapproved. -/
theorem exhaustion_flagged_but_accepted (env : Env) (d1 d2 d3 p a : String)
    (h1 : env.render 1 (build_prompt d1 a) = .ok ())
    (hv1 : acceptedCheck (env.critic 1 d1) = false)
    (hd2 : (env.critic 1 d1).revised_description = some d2) (hd2ne : d2 ≠ "")
    (h2 : env.render 2 (build_prompt d2 a) = .ok ())
    (hv2 : acceptedCheck (env.critic 2 d2) = false)
    (hd3 : (env.critic 2 d2).revised_description = some d3) (hd3ne : d3 ≠ "")
    (h3 : env.render 3 (build_prompt d3 a) = .ok ())
    (hv3 : acceptedCheck (env.critic 3 d3) = false) :
    (run_diagram_refinement env d1 p a).1.accepted = some true ∧
    (run_diagram_refinement env d1 p a).1.max_refinements_reached = true ∧
    (run_diagram_refinement env d1 p a).1.final_scores = some (env.critic 3 d3).scores ∧
    (run_diagram_refinement env d1 p a).1.iterations
      = [env.critic 1 d1, env.critic 2 d2, env.critic 3 d3] ∧
    (run_diagram_refinement env d1 p a).2.renders.length = 3 := by
  have hie2 : d2.isEmpty = false := by
    rw [Bool.eq_false_iff]; intro hc; exact hd2ne ((String.isEmpty_iff d2).1 hc)
  have hie3 : d3.isEmpty = false := by
    rw [Bool.eq_false_iff]; intro hc; exact hd3ne ((String.isEmpty_iff d3).1 hc)
  simp [run_diagram_refinement, refineLoop, h1, hv1, hd2, hie2, h2, hv2, hd3, hie3,
    h3, hv3, pyTruthy, MAX_REFINEMENTS]

/-- C4, witness: the amended theorem applied to the environment where
every verdict fails and revises. -/
theorem exhaustion_flagged_but_accepted_witness :
    (run_diagram_refinement envAllFailRevise "A" "out.png" "16:9").1.accepted = some true ∧
    (run_diagram_refinement envAllFailRevise "A" "out.png" "16:9").1.max_refinements_reached
      = true :=
  ⟨(exhaustion_flagged_but_accepted envAllFailRevise "A" "revision 1" "revision 2"
      "out.png" "16:9" rfl rfl rfl (by decide) rfl rfl rfl (by decide) rfl rfl).1,
   (exhaustion_flagged_but_accepted envAllFailRevise "A" "revision 1" "revision 2"
      "out.png" "16:9" rfl rfl rfl (by decide) rfl rfl rfl (by decide) rfl rfl).2.1⟩

/-- C5: a verdict with `primary_pass` false and `revised_description`
null does not crash the loop: the orchestrator accepts the current image
(`accepted = True`, no error recorded) and reaches a terminal state with
no further render call — the renderer was invoked exactly once. -/
theorem missing_revision_accepts_current (env : Env) (d p a : String)
    (h1 : env.render 1 (build_prompt d a) = .ok ())
    (hv : acceptedCheck (env.critic 1 d) = false)
    (hrv : (env.critic 1 d).revised_description = none) :
    (run_diagram_refinement env d p a).1.accepted = some true ∧
    (run_diagram_refinement env d p a).1.error = none ∧
    (run_diagram_refinement env d p a).1.iterations = [env.critic 1 d] ∧
    (run_diagram_refinement env d p a).2.renders.length = 1 ∧
    (run_diagram_refinement env d p a).1.max_refinements_reached = false := by
  simp [run_diagram_refinement, refineLoop, h1, hv, hrv, pyTruthy, MAX_REFINEMENTS]

/-- C5, witness: the theorem applied to the environment whose critic
fails the primary check and supplies no revision. -/
theorem missing_revision_accepts_current_witness :
    (run_diagram_refinement envFailNoRevision "A" "out.png" "16:9").1.accepted = some true ∧
    (run_diagram_refinement envFailNoRevision "A" "out.png" "16:9").2.renders.length = 1 :=
  ⟨(missing_revision_accepts_current envFailNoRevision "A" "out.png" "16:9" rfl rfl rfl).1,
   (missing_revision_accepts_current envFailNoRevision "A" "out.png" "16:9" rfl rfl rfl).2.2.2.1⟩

/-- C6: when the iteration-1 verdict fails the primary check and carries
a (non-null, non-empty) revised Specification B, the iteration-2 render
call is `build_prompt B` — built from B alone, wholesale replacement;
the stated value does not mention the prior Specification A at all. -/
theorem revision_replaces_wholesale (env : Env) (A B p a : String)
    (h1 : env.render 1 (build_prompt A a) = .ok ())
    (hv : acceptedCheck (env.critic 1 A) = false)
    (hB : (env.critic 1 A).revised_description = some B)
    (hBne : B ≠ "") :
    (run_diagram_refinement env A p a).2.renders[1]? = some (2, build_prompt B a) := by
  have hie : B.isEmpty = false := by
    rw [Bool.eq_false_iff]; intro hc; exact hBne ((String.isEmpty_iff B).1 hc)
  have step : (run_diagram_refinement env A p a)
      = refineLoop env p a 2 2 B
          { iterations := [env.critic 1 A] }
          { renders := [(1, build_prompt A a)]
            imageWrites := [(1, savePath p)]
            criticCalls := [(1, A)] } := by
    simp [run_diagram_refinement, refineLoop, h1, hv, hB, hie, pyTruthy, MAX_REFINEMENTS]
  obtain ⟨rest, hrest⟩ := refineLoop_first_render env p a 1 2 B
    { iterations := [env.critic 1 A] }
    { renders := [(1, build_prompt A a)]
      imageWrites := [(1, savePath p)]
      criticCalls := [(1, A)] }
  rw [step, hrest]
  rw [List.getElem?_append_right (by simp)]
  simp

/-- C6, witness: the theorem applied to the environment whose every
verdict fails and revises; the second render call uses revision 1. -/
theorem revision_replaces_wholesale_witness :
    (run_diagram_refinement envAllFailRevise "A" "out.png" "16:9").2.renders[1]?
      = some (2, build_prompt "revision 1" "16:9") :=
  revision_replaces_wholesale envAllFailRevise "A" "revision 1" "out.png" "16:9"
    rfl rfl rfl (by decide)

/-- C7 (code bug, evaluated at the failing input): in a 3-iteration run
each iteration appends exactly one verdict and invokes the critic once,
but all three image writes go to the same path `out.png` — iteration 2
and 3 overwrite the persisted artifact of iteration 1 — although the
source computes a distinct per-iteration name (`iter_output`, line 128)
that it then never passes to `generate_image`. -/
theorem image_artifact_overwritten :
    (run_diagram_refinement envAllFailRevise "A" "out.png" "16:9").2.imageWrites
      = [(1, "out.png"), (2, "out.png"), (3, "out.png")] ∧
    iter_output "out.png" 2 = "out.png.iter2.png" ∧
    (run_diagram_refinement envAllFailRevise "A" "out.png" "16:9").1.iterations.length = 3 ∧
    (run_diagram_refinement envAllFailRevise "A" "out.png" "16:9").2.criticCalls.length = 3 := by
  refine ⟨?_, rfl, rfl, rfl⟩
  decide

/-- C8: `generate_image` invokes the external client at most
`MAX_RETRIES = 3` times; when all three attempts fail, exactly 3 calls
are made, the backoff delays are the base delay and then twice the base
delay, and the call fails with a `RuntimeError` carrying the last
underlying error. -/
theorem renderer_retry_backoff :
    (∀ f out, (generate_image f out).2.calls ≤ MAX_RETRIES) ∧
    (∀ f out e2, attemptError (f 0) ≠ none → attemptError (f 1) ≠ none →
      attemptError (f 2) = some e2 →
      (generate_image f out).2.calls = 3 ∧
      (generate_image f out).2.delays = [RETRY_BASE_DELAY, 2 * RETRY_BASE_DELAY] ∧
      (generate_image f out).1 = .error ("Image generation failed after " ++
        toString MAX_RETRIES ++ " attempts. Last error: " ++ e2)) := by
  constructor
  · intro f out
    simp only [generate_image, genLoop, MAX_RETRIES]
    cases h0 : attemptError (f 0) with
    | none => simp
    | some e0 =>
      simp only [genLoop]
      cases h1 : attemptError (f 1) with
      | none => simp
      | some e1 =>
        simp only [genLoop]
        cases h2 : attemptError (f 2) with
        | none => simp
        | some e2 => simp
  · intro f out e2 h0 h1 h2
    obtain ⟨e0, h0⟩ := Option.ne_none_iff_exists'.1 h0
    obtain ⟨e1, h1⟩ := Option.ne_none_iff_exists'.1 h1
    refine ⟨?_, ?_, ?_⟩ <;>
      simp [generate_image, genLoop, h0, h1, h2, MAX_RETRIES, RETRY_BASE_DELAY]

/-- C8, witness: the theorem applied to an attempt function that raises
a timeout on every attempt. -/
theorem renderer_retry_backoff_witness :
    (generate_image (fun _ => .raised "timeout") "out.png").2.calls = 3 ∧
    (generate_image (fun _ => .raised "timeout") "out.png").2.delays
      = [RETRY_BASE_DELAY, 2 * RETRY_BASE_DELAY] ∧
    (generate_image (fun _ => .raised "timeout") "out.png").1 = .error
      ("Image generation failed after " ++ toString MAX_RETRIES ++
        " attempts. Last error: " ++ "timeout") :=
  renderer_retry_backoff.2 (fun _ => .raised "timeout") "out.png" "timeout"
    (by decide) (by decide) (by decide)

/-- C9, counterexample: with a methodology supplied inline — and even if
the unreached remainder of the pipeline would exit 0 — the process exits
1, because the Phase-1 retriever call raises an uncaught `TypeError`.
That failure is neither of the FAILED causes the claim names (missing
precondition, unrecoverable renderer/service error), so the process
exits non-zero on a non-FAILED run, and no run ever reaches a terminal
state that exits 0. -/
theorem exit_code_claim_false_cex :
    mainDiagramExitCode (.inline "M") (fun _ => true) (fun _ => 0) = 1 ∧
    diagramPhase1 = .error
      "TypeError: run_retriever() got an unexpected keyword argument references_dir" :=
  ⟨rfl, rfl⟩

/-- C9, amended: in diagram mode the process never exits 0.  It exits 1
on the missing preconditions (no methodology given, methodology file not
found) and equally on every run that passes them, because the first
statement `run_diagram_pipeline` executes is the Phase-1 `run_retriever`
call, whose `TypeError` propagates uncaught out of `main`; exit codes do
not track the terminal states of the refinement loop. -/
theorem diagram_mode_always_exits_one (src : MethodologySource)
    (fe : String → Bool) (rest : Unit → Nat) :
    mainDiagramExitCode src fe rest = 1 := by
  cases src with
  | absent => rfl
  | inline m => rfl
  | fromFile p =>
    simp only [mainDiagramExitCode]
    cases h : fe p
    · simp [h]
    · simp only [h, if_true]
      rfl

/-- C10, counterexample: a critic verdict violating the revision pairing
(`primary_pass` false with `revised_description` null) is consumed as
ordinary data: the run records no error and terminates accepted — no
`CriticContractViolation` stage failure is raised anywhere. -/
theorem contract_violation_silent_cex :
    acceptedCheck (envFailNoRevision.critic 1 "A") = false ∧
    (envFailNoRevision.critic 1 "A").revised_description = none ∧
    (run_diagram_refinement envFailNoRevision "A" "out.png" "16:9").1.error = none ∧
    (run_diagram_refinement envFailNoRevision "A" "out.png" "16:9").1.accepted = some true ∧
    (run_diagram_refinement envFailNoRevision "A" "out.png" "16:9").1.iterations
      = [failingVerdict none] :=
  ⟨rfl, rfl, rfl, rfl, rfl⟩

/-- C10, amended: neither direction of the pairing violation is surfaced
as a stage failure.  A verdict with `primary_pass` false and null
revision is treated as accept-current; a verdict with `primary_pass`
true is accepted with any non-null revision ignored.  In both cases the
run ends accepted with no error and no further stage call. -/
theorem contract_violation_consumed (env : Env) (d p a : String)
    (h1 : env.render 1 (build_prompt d a) = .ok ())
    (hviol : (acceptedCheck (env.critic 1 d) = false ∧
        (env.critic 1 d).revised_description = none) ∨
      acceptedCheck (env.critic 1 d) = true) :
    (run_diagram_refinement env d p a).1.error = none ∧
    (run_diagram_refinement env d p a).1.accepted = some true ∧
    (run_diagram_refinement env d p a).1.iterations = [env.critic 1 d] ∧
    (run_diagram_refinement env d p a).2.renders.length = 1 := by
  rcases hviol with ⟨hv, hrv⟩ | hv
  · simp [run_diagram_refinement, refineLoop, h1, hv, hrv, pyTruthy, MAX_REFINEMENTS]
  · simp [run_diagram_refinement, refineLoop, h1, hv]

/-- C10, witness: the amended theorem applied to the environment whose
critic passes while supplying a spurious revision. -/
theorem contract_violation_consumed_witness :
    (run_diagram_refinement envPassWithRevision "A" "out.png" "16:9").1.error = none ∧
    (run_diagram_refinement envPassWithRevision "A" "out.png" "16:9").1.accepted = some true :=
  ⟨(contract_violation_consumed envPassWithRevision "A" "out.png" "16:9" rfl (Or.inr rfl)).1,
   (contract_violation_consumed envPassWithRevision "A" "out.png" "16:9" rfl (Or.inr rfl)).2.1⟩

end PaperBanana
